import Mathlib

/-!
Verification of the version/revision reconciliation core of
`nototools/autofix_for_phase3.py` and the dry-run I/O skeleton that uses
`nototools/tool_utils.py`.

Python strings are modelled as Lean `String` (processed through their
underlying `List Char`), Python ints as `Nat` (all values in scope are
decimal-digit parses, hence non-negative), Python lists of ints as
`List Nat`, and every `raise` site as an `Except.error` carrying a
constructor of `AutofixError` that identifies the raise site and the
offending values.
-/

/-- Error taxonomy: one constructor per distinct `raise` site of the source.
The spec's names for these classes: `versionRegexMismatch` = the up-front
version-directive rejection; `versionInfoFormat` = FormatError;
`versionInfoTooOld`, `versionInfoInvalidDate`, `versionInfoFutureDate` =
SemanticError; `newBelowRelease`, `newBelowCurrent`, `versionTooHigh` =
ValidationError; `cannotBump` = OverflowError; `largeDiff` = ToleranceError;
`noExpectedUiMetrics` = ConfigError.  `versionFormat` stands for the
ValueError/IndexError Python's `int()` / list indexing would raise on a
malformed version string.  -/
inductive AutofixError where
  | versionRegexMismatch (version : String)
  | versionInfoFormat (version_info : String)
  | versionInfoTooOld (version_info : String)
  | versionInfoInvalidDate (y m d : Nat) (version_info : String)
  | versionInfoFutureDate (version_info : String)
  | newBelowRelease (nversion rversion : String)
  | newBelowCurrent (nversion version : String)
  | cannotBump (rversion : String)
  | versionTooHigh (version : String)
  | versionFormat (s : String)
  | noExpectedUiMetrics (upem : Int)
  | largeDiff (val_name : String)
  | notHintable (script : String)
  | releaseDirMissing (reldir : String)
  | existsNotDir (p : String)
  | couldNotComputeVersionInfo
deriving DecidableEq

deriving instance DecidableEq for Except

/-- One step of decimal accumulation: shift the accumulator and add the
value of the digit character. -/
def charStep (a : Nat) (c : Char) : Nat :=
  a * 10 + (c.toNat - 48)

/-- Decimal value of a digit-character list, most significant first; this is
what Python's `int()` computes on a string of decimal digits. -/
def charsToNat (l : List Char) : Nat :=
  l.foldl charStep 0

/-- Embedding of Python `int(s)` restricted to the inputs that occur in this
program: the version regexes only ever hand `int()` non-empty strings of
decimal digits, so sign and whitespace handling is out of scope and any
other input is mapped to `none` (Python raises `ValueError` there). -/
def pyIntDigits (l : List Char) : Option Nat :=
  if !l.isEmpty && l.all Char.isDigit then some (charsToNat l) else none

/-- Embedding of Python `s.split(c)` for a one-character separator. -/
def splitOnChar (c : Char) : List Char → List (List Char)
  | [] => [[]]
  | x :: xs =>
    let r := splitOnChar c xs
    if x = c then [] :: r
    else
      match r with
      | [] => [[x]]
      | y :: ys => (x :: y) :: ys

/-- Parse each dot-separated component with `int()`; `none` if any fails. -/
def mapIntParse : List (List Char) → Option (List Nat)
  | [] => some []
  | x :: xs =>
    match pyIntDigits x, mapIntParse xs with
    | some n, some ns => some (n :: ns)
    | _, _ => none

/-- `_version_str_to_mm` (autofix_for_phase3.py:150):
`[int(n) for n in version.split('.')]`. -/
def version_str_to_mm (s : String) : Option (List Nat) :=
  mapIntParse (splitOnChar '.' s.data)

/-- Fuel-driven helper for `natToDigits`; the fuel only serves to make the
recursion structural, `natToDigits` always supplies enough of it. -/
def natToDigitsAux (fuel n : Nat) : List Char :=
  match fuel with
  | 0 => []
  | fuel + 1 =>
    if n < 10 then [Nat.digitChar n]
    else natToDigitsAux fuel (n / 10) ++ [Nat.digitChar (n % 10)]

/-- Decimal digit characters of `n`, most significant first: the embedding of
printf `%d` for a non-negative integer. -/
def natToDigits (n : Nat) : List Char :=
  natToDigitsAux (n + 1) n

/-- Zero padding to a minimum width, as in printf `%02d` / `%03d`. -/
def padZeros (w : Nat) (l : List Char) : List Char :=
  List.replicate (w - l.length) '0' ++ l

/-- `_mm_to_version_str` (autofix_for_phase3.py:154):
`('%d.%02d' if mm[0] == 1 else '%d.%03d') % tuple(mm)`.  Only ever applied
to two-element lists in the source (anything else would make the `%`
formatting raise); the catch-all returns `""`. -/
def mm_to_version_str (mm : List Nat) : String :=
  match mm with
  | [a, b] =>
    if a = 1 then String.mk (natToDigits a ++ '.' :: padZeros 2 (natToDigits b))
    else String.mk (natToDigits a ++ '.' :: padZeros 3 (natToDigits b))
  | _ => ""

/-- Python list comparison `<` on integer lists (lexicographic, a strict
proper initial segment is smaller), as used on the two-element
major/minor lists in `get_new_version`. -/
def listLt : List Nat → List Nat → Bool
  | [], [] => false
  | [], _ :: _ => true
  | _ :: _, [] => false
  | a :: as, b :: bs => if a < b then true else if b < a then false else listLt as bs

/-- The set of texts the version-extraction grammar accepts
(`_version_re`, autofix_for_phase3.py:139, group `\d+\.\d{2,3}` taken as a
whole match): `major.minor` with a non-empty all-digit major part and an
all-digit minor part of 2 or 3 digits. -/
def version_text_accepted (s : String) : Bool :=
  match splitOnChar '.' s.data with
  | [a, b] =>
    !a.isEmpty && a.all Char.isDigit && b.all Char.isDigit &&
      (b.length = 2 || b.length = 3)
  | _ => false

/-- The tail of `get_new_version` (autofix_for_phase3.py:193-210): no
explicit new-version string, so compute one.  `mm` is the parsed current
version, `version` its text (used in the error), `rversion` the released
version text if any. -/
def compute_new_version (mm : List Nat) (version : String) (rversion : Option String) :
    Except AutofixError String :=
  match rversion with
  | some rv =>
    match version_str_to_mm rv with
    | none => Except.error (AutofixError.versionFormat rv)
    | some r_mm =>
      match r_mm with
      | r0 :: r1 :: rest =>
        if r1 = 999 then Except.error (AutofixError.cannotBump rv)
        else if rest = [] then Except.ok (mm_to_version_str [r0, r1 + 1])
        else Except.error (AutofixError.versionFormat rv)
      | _ => Except.error (AutofixError.versionFormat rv)
  | none =>
    match mm with
    | m0 :: _ =>
      if m0 = 2 then Except.ok ("2.040")
      else if m0 < 2 then Except.ok ("2.000")
      else Except.error (AutofixError.versionTooHigh version)
    | [] => Except.error (AutofixError.versionFormat version)

/-- `get_new_version` (autofix_for_phase3.py:158-210), taken after the two
`_extract_version` calls: `version` is the current font's version text,
`rversion` the released font's version text (or `none`), `nversion` the
requested directive (`none`, `"keep"`, or an explicit version text). -/
def get_new_version (version : String) (rversion : Option String)
    (nversion : Option String) : Except AutofixError String :=
  match version_str_to_mm version with
  | none => Except.error (AutofixError.versionFormat version)
  | some mm =>
    match nversion with
    | some nv =>
      if nv = "keep" then
        match rversion with
        | some rv => Except.ok rv
        | none => compute_new_version mm version rversion
      else
        match version_str_to_mm nv with
        | none => Except.error (AutofixError.versionFormat nv)
        | some n_mm =>
          match rversion with
          | some rv =>
            match version_str_to_mm rv with
            | none => Except.error (AutofixError.versionFormat rv)
            | some r_mm =>
              if listLt n_mm r_mm then
                Except.error (AutofixError.newBelowRelease nv rv)
              else Except.ok nv
          | none =>
            if listLt n_mm mm then
              Except.error (AutofixError.newBelowCurrent nv version)
            else Except.ok nv
    | none => compute_new_version mm version rversion

/-- Version-text comparison: parse both sides and compare the component
lists the way `get_new_version` does; `false` when either side fails to
parse. -/
def versionStrLt (s t : String) : Bool :=
  match version_str_to_mm s, version_str_to_mm t with
  | some a, some b => listLt a b
  | _, _ => false

/-- Expect the literal `lit` at the head of `l`; return the remainder. -/
def stripLit : List Char → List Char → Option (List Char)
  | [], rest => some rest
  | _ :: _, [] => none
  | c :: cs, d :: ds => if d = c then stripLit cs ds else none

/-- Take exactly `n` characters; `none` if the input is shorter. -/
def takeChars : Nat → List Char → Option (List Char × List Char)
  | 0, l => some ([], l)
  | _ + 1, [] => none
  | n + 1, c :: cs =>
    match takeChars n cs with
    | none => none
    | some (xs, rest) => some (c :: xs, rest)

/-- Lower-case hexadecimal digit, the character class `[0-9a-f]`. -/
def isHexLower (c : Char) : Bool :=
  c.isDigit || ('a' ≤ c && c ≤ 'f')

/-- Embedding of `_version_info_re.match` (autofix_for_phase3.py:53):
`GOOG;noto-fonts:(\d{4})(\d{2})(\d{2}):([0-9a-f]{12})` matched at the start
of the string (`re.match` leaves trailing characters unconstrained).
Returns the three integer date groups on success. -/
def matchVersionInfo (s : String) : Option (Nat × Nat × Nat) :=
  match stripLit ("GOOG;noto-fonts:".data) s.data with
  | none => none
  | some rest =>
    match takeChars 4 rest with
    | none => none
    | some (y, rest) =>
      if y.all Char.isDigit then
        match takeChars 2 rest with
        | none => none
        | some (mo, rest) =>
          if mo.all Char.isDigit then
            match takeChars 2 rest with
            | none => none
            | some (d, rest) =>
              if d.all Char.isDigit then
                match stripLit (":".data) rest with
                | none => none
                | some rest =>
                  match takeChars 12 rest with
                  | none => none
                  | some (h, _) =>
                    if h.all isHexLower then
                      some (charsToNat y, charsToNat mo, charsToNat d)
                    else none
              else none
          else none
      else none

/-- Gregorian leap year, as in Python's `datetime` module. -/
def isLeapYear (y : Nat) : Bool :=
  y % 4 = 0 && (y % 100 ≠ 0 || y % 400 = 0)

/-- Days in a month, as in Python's `datetime` module. -/
def daysInMonth (y m : Nat) : Nat :=
  if m = 2 then (if isLeapYear y then 29 else 28)
  else if m = 4 || m = 6 || m = 9 || m = 11 then 30
  else 31

/-- Validity of `datetime.date(y, m, d)`: Python raises `ValueError` unless
`MINYEAR (1) <= y <= MAXYEAR (9999)`, `1 <= m <= 12`, and
`1 <= d <= days-in-month`. -/
def isValidDate (y m d : Nat) : Bool :=
  1 ≤ y && y ≤ 9999 && 1 ≤ m && m ≤ 12 && 1 ≤ d && d ≤ daysInMonth y m

/-- Chronological order on (year, month, day) triples; Python's
`datetime.date` comparison is exactly this lexicographic order. -/
def dateLtB (a b : Nat × Nat × Nat) : Bool :=
  if a.1 < b.1 then true
  else if b.1 < a.1 then false
  else if a.2.1 < b.2.1 then true
  else if b.2.1 < a.2.1 then false
  else decide (a.2.2 < b.2.2)

/-- `_check_version_info` (autofix_for_phase3.py:56-80).  `today` stands for
`datetime.date.today()`, injected so that the time-dependent check is a
pure function of the validation-time date. -/
def _check_version_info (version_info : String) (today : Nat × Nat × Nat) :
    Except AutofixError Unit :=
  match matchVersionInfo version_info with
  | none => Except.error (AutofixError.versionInfoFormat version_info)
  | some (year, month, day) =>
    if 2017 ≤ year then
      if isValidDate year month day then
        if dateLtB today (year, month, day) then
          Except.error (AutofixError.versionInfoFutureDate version_info)
        else Except.ok ()
      else Except.error (AutofixError.versionInfoInvalidDate year month day version_info)
    else Except.error (AutofixError.versionInfoTooOld version_info)

/-- The core language of `_new_version_re` (autofix_for_phase3.py:44),
`keep|[12]\.\d{3}`, matched against a whole character list. -/
def versionCoreMatch (l : List Char) : Bool :=
  l = "keep".data ||
    (match l with
     | [c1, c2, d1, d2, d3] =>
       (c1 = '1' || c1 = '2') && c2 = '.' && d1.isDigit && d2.isDigit && d3.isDigit
     | _ => false)

/-- Embedding of `re.match(r'^(?:keep|[12]\.\d{3})$', s)`: in Python, `$`
also matches just before a single final newline, so the core language
optionally followed by one `'\n'` is accepted. -/
def _new_version_match (s : String) : Bool :=
  versionCoreMatch s.data ||
    (match s.data.reverse with
     | c :: rest => c = '\n' && versionCoreMatch rest.reverse
     | [] => false)

/-- `_check_version` (autofix_for_phase3.py:46-50): `None` or a match of
`_new_version_re` passes, anything else raises. -/
def _check_version (version : Option String) : Except AutofixError Unit :=
  match version with
  | none => Except.ok ()
  | some s =>
    if _new_version_match s then Except.ok ()
    else Except.error (AutofixError.versionRegexMismatch s)

/-- `_check_autohint` (autofix_for_phase3.py:101-104).  The table
`noto_data.HINTED_SCRIPTS` lives outside this repository, so its key set is
a parameter `hintedScripts`.  Python's `if script and not (...)` treats both
`None` and the empty string as "no script given". -/
def _check_autohint (hintedScripts : List String) (script : Option String) :
    Except AutofixError Unit :=
  match script with
  | none => Except.ok ()
  | some s =>
    if s = "" || s = "no-script" || hintedScripts.contains s then Except.ok ()
    else Except.error (AutofixError.notHintable s)

/-- The expected UI vertical metrics chosen from the em-size
(autofix_for_phase3.py:336-343): known only for 2048 and 1000 units per em,
anything else raises. -/
def expected_ui_metrics (upem : Int) : Except AutofixError (Int × Int) :=
  if upem = 2048 then Except.ok (2163, -555)
  else if upem = 1000 then Except.ok (1069, -293)
  else Except.error (AutofixError.noExpectedUiMetrics upem)

/-- The descent half of the UI-metrics block (autofix_for_phase3.py:353-357):
if the observed descent differs, `_alert_and_check` raises when the absolute
difference exceeds 2, otherwise the three descent fields are assigned
(`usWinDescent` gets the negated value).  `acc` carries the assignments
already made by the ascent half. -/
def plan_descent (expDesc fontDescent : Int) (acc : List (String × Int)) :
    Except AutofixError (List (String × Int)) :=
  if fontDescent = expDesc then Except.ok acc
  else if (fontDescent - expDesc).natAbs > 2 then
    Except.error (AutofixError.largeDiff ("descent"))
  else
    Except.ok (acc ++
      [("hhea.descent", expDesc), ("OS/2.sTypoDescender", expDesc),
       ("OS/2.usWinDescent", -expDesc)])

/-- The UI-metrics block of `fix_font` (autofix_for_phase3.py:335-357) as a
pure planner: from the em-size and the observed hhea ascent/descent it
produces the list of field assignments the code would perform, or the error
the code would raise.  The ascent half runs first and its tolerance failure
preempts the descent half, exactly as in the source. -/
def plan_ui_metrics (upem fontAscent fontDescent : Int) :
    Except AutofixError (List (String × Int)) :=
  match expected_ui_metrics upem with
  | Except.error e => Except.error e
  | Except.ok (expAsc, expDesc) =>
    if fontAscent = expAsc then plan_descent expDesc fontDescent []
    else if (fontAscent - expAsc).natAbs > 2 then
      Except.error (AutofixError.largeDiff ("ascent"))
    else
      plan_descent expDesc fontDescent
        [("hhea.ascent", expAsc), ("OS/2.sTypoAscender", expAsc),
         ("OS/2.usWinAscent", expAsc)]

/-- A filesystem snapshot: the directories and plain files that exist.
Path normalisation (`os.path.realpath`, `os.path.abspath`) is delegated to
the path resolver collaborator and not modelled; paths are compared
verbatim. -/
structure FS where
  dirs : List String
  files : List String
deriving DecidableEq

/-- `tool_utils.ensure_dir_exists` (tool_utils.py:71-78): return the path if
it is already a directory, raise if it exists as a file, otherwise create it
(`os.makedirs`). -/
def ensure_dir_exists (p : String) (fs : FS) : Except AutofixError (FS × String) :=
  if fs.dirs.contains p then Except.ok (fs, p)
  else if fs.files.contains p then Except.error (AutofixError.existsNotDir p)
  else Except.ok ({ dirs := p :: fs.dirs, files := fs.files }, p)

/-- `os.path.dirname` for POSIX paths: everything up to the last `/`, with
trailing slashes stripped unless the head is all slashes. -/
def dirname (s : String) : String :=
  let headRev := s.data.reverse.dropWhile (fun c => c ≠ '/')
  match headRev.dropWhile (fun c => c = '/') with
  | [] => String.mk headRev.reverse
  | stripped => String.mk stripped.reverse

/-- `os.path.join` for POSIX paths, two arguments, as used in `fix_font`. -/
def pathJoin (a b : String) : String :=
  if b.data.head? = some '/' then b
  else if a = "" then b
  else if a.data.getLast? = some '/' then a ++ b
  else a ++ "/" ++ b

/-- The four possible results of `_autohint_code` (autofix_for_phase3.py:224):
the literal `'not-hinted'`, Python `None`, the literal `'no-script'`, or a
ttfautohint script code from the (external) `HINTED_SCRIPTS` table. -/
inductive AutohintCode where
  | notHinted
  | noCode
  | noScript
  | code (c : String)
deriving DecidableEq

/-- `autohint_font` (autofix_for_phase3.py:236-257) at the effect level,
with the table lookup `_autohint_code` already performed (its table is
external to this repository).  Returns the filesystem after the call and
the list of external process invocations (argument vectors). -/
def autohint_font_io (code : AutohintCode) (src dst : String) (dry_run : Bool)
    (fs : FS) : Except AutofixError (FS × List (List String)) :=
  match code with
  | AutohintCode.notHinted => Except.ok (fs, [])
  | AutohintCode.noCode => Except.ok (fs, [])
  | AutohintCode.noScript =>
    if dry_run then Except.ok (fs, [])
    else
      match ensure_dir_exists (dirname dst) fs with
      | Except.error e => Except.error e
      | Except.ok (fs2, _) =>
        Except.ok (fs2, [["ttfautohint", "-t", "-W", src, dst]])
  | AutohintCode.code c =>
    if dry_run then Except.ok (fs, [])
    else
      match ensure_dir_exists (dirname dst) fs with
      | Except.error e => Except.error e
      | Except.ok (fs2, _) =>
        Except.ok (fs2, [["ttfautohint", "-t", "-W", "-f", c, src, dst]])

/-- The effect skeleton of `fix_font` (autofix_for_phase3.py:309-371).
`plan` stands for the outcome of the in-memory planning and validation
(lines 314-357, including `get_new_version` and the UI-metrics checks),
which runs before any filesystem effect; `fname` is the basename of the
font.  Returns the filesystem after the call, the list of font files
written, and the list of external process invocations. -/
def fix_font_io (plan : Except AutofixError Unit) (fname dstdir : String)
    (autohint : Option AutohintCode) (dry_run : Bool) (fs : FS) :
    Except AutofixError (FS × List String × List (List String)) :=
  match plan with
  | Except.error e => Except.error e
  | Except.ok _ =>
    match ensure_dir_exists (pathJoin dstdir ("unhinted")) fs with
    | Except.error e => Except.error e
    | Except.ok (fs1, _) =>
      let udst := pathJoin (pathJoin dstdir ("unhinted")) fname
      let out :=
        if dry_run then (fs1, ([] : List String))
        else ({ dirs := fs1.dirs, files := udst :: fs1.files }, [udst])
      match autohint with
      | none => Except.ok (out.1, out.2, [])
      | some code =>
        let hdst := pathJoin (pathJoin dstdir ("hinted")) fname
        match autohint_font_io code udst hdst dry_run out.1 with
        | Except.error e => Except.error e
        | Except.ok (fs3, procs) => Except.ok (fs3, out.2, procs)

/-- Sequential per-font processing loop of `autofix_fonts`
(autofix_for_phase3.py:135-136): each font is handled to completion and the
first failure aborts the batch. -/
def foldFix (fixOne : String → FS → Except AutofixError FS) :
    List String → FS → Except AutofixError FS
  | [], fs => Except.ok fs
  | f :: rest, fs =>
    match fixOne f fs with
    | Except.error e => Except.error e
    | Except.ok fs2 => foldFix fixOne rest fs2

/-- `autofix_fonts` (autofix_for_phase3.py:107-136).  The per-font work is
the abstract step `fixOne` (it closes over dstdir, release dir, version,
version info, autohint and dry_run); `computed_info` stands for the result
of `_get_version_info`, which reads external git state; `hintedScripts` is
the external `HINTED_SCRIPTS` key set; `today` is the injected current
date.  The statement order matches the source: destination directory
creation, release-directory check, version-info check, version-directive
check, autohint check, then the per-font loop over the sorted font list. -/
def autofix_fonts_model (fixOne : String → FS → Except AutofixError FS)
    (hintedScripts : List String) (font_names : List String) (dstdir : String)
    (release_dir : Option String) (version : Option String)
    (version_info : Option String) (computed_info : Option String)
    (today : Nat × Nat × Nat) (autohint : Option String) (fs : FS) :
    Except AutofixError FS :=
  match ensure_dir_exists dstdir fs with
  | Except.error e => Except.error e
  | Except.ok (fs1, _) =>
    match
      (match release_dir with
       | none => Except.ok ()
       | some rd =>
         if fs1.dirs.contains rd then Except.ok ()
         else Except.error (AutofixError.releaseDirMissing rd)) with
    | Except.error e => Except.error e
    | Except.ok _ =>
      match
        (match version_info with
         | none =>
           match computed_info with
           | none => Except.error AutofixError.couldNotComputeVersionInfo
           | some vi => Except.ok vi
         | some vi =>
           match _check_version_info vi today with
           | Except.error e => Except.error e
           | Except.ok _ => Except.ok vi) with
      | Except.error e => Except.error e
      | Except.ok _ =>
        match _check_version version with
        | Except.error e => Except.error e
        | Except.ok _ =>
          match _check_autohint hintedScripts autohint with
          | Except.error e => Except.error e
          | Except.ok _ =>
            foldFix fixOne (font_names.mergeSort (fun a b => decide (a ≤ b))) fs1

example : version_str_to_mm ("2.040") = some [2, 40] := by decide
example : mm_to_version_str [2, 40] = "2.040" := by decide
example : mm_to_version_str [1, 5] = "1.05" := by decide
example : get_new_version ("2.100") none none = Except.ok ("2.040") := by decide
example : get_new_version ("1.23") (some ("2.001")) none = Except.ok ("2.002") := by decide
example : matchVersionInfo ("GOOG;noto-fonts:20170220:a8a215d2e889") = some (2017, 2, 20) := by decide
example : _check_version_info ("GOOG;noto-fonts:20170220:a8a215d2e889") (2018, 1, 1) = Except.ok () := by decide
example : plan_ui_metrics 2048 2162 (-555) =
    Except.ok [("hhea.ascent", 2163), ("OS/2.sTypoAscender", 2163), ("OS/2.usWinAscent", 2163)] := by decide
example : plan_ui_metrics 2048 2160 (-555) = Except.error (AutofixError.largeDiff ("ascent")) := by decide

theorem natToDigitsAux_fuel_irrel (n : Nat) : ∀ fuel fuel', n < fuel → n < fuel' →
    natToDigitsAux fuel n = natToDigitsAux fuel' n := by
  induction n using Nat.strong_induction_on with
  | _ n ih =>
    intro fuel fuel' h h'
    cases fuel with
    | zero => omega
    | succ f =>
      cases fuel' with
      | zero => omega
      | succ f' =>
        by_cases hn : n < 10
        · simp [natToDigitsAux, hn]
        · have hd : n / 10 < n := Nat.div_lt_self (by omega) (by norm_num)
          simp only [natToDigitsAux, if_neg hn]
          rw [ih (n / 10) hd f f' (by omega) (by omega)]

theorem natToDigits_lt (n : Nat) (h : n < 10) : natToDigits n = [Nat.digitChar n] := by
  show natToDigitsAux (n + 1) n = _
  simp [natToDigitsAux, h]

theorem natToDigits_ge (n : Nat) (h : ¬ n < 10) :
    natToDigits n = natToDigits (n / 10) ++ [Nat.digitChar (n % 10)] := by
  have hd : n / 10 < n := Nat.div_lt_self (by omega) (by norm_num)
  show natToDigitsAux (n + 1) n = _
  simp only [natToDigitsAux, if_neg h]
  rw [natToDigitsAux_fuel_irrel (n / 10) n (n / 10 + 1) (by omega) (by omega)]
  rfl

theorem digitChar_isDigit (d : Nat) (h : d < 10) : (Nat.digitChar d).isDigit = true := by
  interval_cases d <;> decide

theorem digitChar_val (d : Nat) (h : d < 10) : (Nat.digitChar d).toNat - 48 = d := by
  interval_cases d <;> decide

theorem charsToNat_append_singleton (l : List Char) (c : Char) :
    charsToNat (l ++ [c]) = charsToNat l * 10 + (c.toNat - 48) := by
  simp [charsToNat, List.foldl_append, charStep]

theorem charsToNat_natToDigits (n : Nat) : charsToNat (natToDigits n) = n := by
  induction n using Nat.strong_induction_on with
  | _ n ih =>
    by_cases h : n < 10
    · rw [natToDigits_lt n h]
      show charStep 0 (Nat.digitChar n) = n
      show 0 * 10 + ((Nat.digitChar n).toNat - 48) = n
      rw [digitChar_val n h]
      omega
    · rw [natToDigits_ge n h, charsToNat_append_singleton,
        ih (n / 10) (Nat.div_lt_self (by omega) (by norm_num)),
        digitChar_val (n % 10) (Nat.mod_lt _ (by norm_num))]
      omega

theorem natToDigits_mem_isDigit (n : Nat) : ∀ c ∈ natToDigits n, c.isDigit = true := by
  induction n using Nat.strong_induction_on with
  | _ n ih =>
    intro c hc
    by_cases h : n < 10
    · rw [natToDigits_lt n h] at hc
      simp at hc
      subst hc
      exact digitChar_isDigit n h
    · rw [natToDigits_ge n h] at hc
      rcases List.mem_append.mp hc with h1 | h2
      · exact ih (n / 10) (Nat.div_lt_self (by omega) (by norm_num)) c h1
      · simp at h2
        subst h2
        exact digitChar_isDigit (n % 10) (Nat.mod_lt _ (by norm_num))

theorem natToDigits_ne_nil (n : Nat) : natToDigits n ≠ [] := by
  by_cases h : n < 10
  · rw [natToDigits_lt n h]
    simp
  · rw [natToDigits_ge n h]
    simp

theorem natToDigits_not_dot (n : Nat) : '.' ∉ natToDigits n := by
  intro hmem
  exact absurd (natToDigits_mem_isDigit n '.' hmem) (by decide)

theorem charsToNat_padZeros (w : Nat) (l : List Char) :
    charsToNat (padZeros w l) = charsToNat l := by
  unfold padZeros charsToNat
  rw [List.foldl_append]
  congr 1
  generalize w - l.length = k
  induction k with
  | zero => rfl
  | succ m ihm => simpa [List.replicate_succ, charStep] using ihm

theorem padZeros_mem (w : Nat) (l : List Char) (c : Char) (h : c ∈ padZeros w l) :
    c = '0' ∨ c ∈ l := by
  unfold padZeros at h
  rcases List.mem_append.mp h with h1 | h2
  · exact Or.inl (List.eq_of_mem_replicate h1)
  · exact Or.inr h2

theorem padZeros_length (w : Nat) (l : List Char) :
    (padZeros w l).length = max w l.length := by
  simp [padZeros]
  omega

theorem padZeros_ne_nil (w : Nat) (l : List Char) (h : l ≠ []) : padZeros w l ≠ [] := by
  unfold padZeros
  intro hc
  exact h (List.append_eq_nil.mp hc).2

theorem padZeros_not_dot (w n : Nat) : '.' ∉ padZeros w (natToDigits n) := by
  intro h
  rcases padZeros_mem w _ _ h with h0 | hd
  · exact absurd h0 (by decide)
  · exact natToDigits_not_dot n hd

theorem splitOnChar_not_mem (c : Char) (l : List Char) (h : c ∉ l) :
    splitOnChar c l = [l] := by
  induction l with
  | nil => rfl
  | cons x xs ihx =>
    have hx : ¬ x = c := fun he => h (he ▸ List.mem_cons_self x xs)
    have hxs : c ∉ xs := fun hm => h (List.mem_cons_of_mem x hm)
    simp only [splitOnChar, if_neg hx, ihx hxs]

theorem splitOnChar_append (c : Char) (a b : List Char) (ha : c ∉ a) :
    splitOnChar c (a ++ c :: b) = a :: splitOnChar c b := by
  induction a with
  | nil => simp [splitOnChar]
  | cons x xs ihx =>
    have hx : ¬ x = c := fun he => ha (he ▸ List.mem_cons_self x xs)
    have hxs : c ∉ xs := fun hm => ha (List.mem_cons_of_mem x hm)
    simp only [List.cons_append, splitOnChar, if_neg hx, List.append_eq, ihx hxs]

theorem pyIntDigits_natToDigits (n : Nat) : pyIntDigits (natToDigits n) = some n := by
  unfold pyIntDigits
  rw [if_pos, charsToNat_natToDigits]
  rw [Bool.and_eq_true]
  refine ⟨?_, ?_⟩
  · cases hl : natToDigits n with
    | nil => exact absurd hl (natToDigits_ne_nil n)
    | cons y ys => simp
  · rw [List.all_eq_true]
    exact fun c hc => natToDigits_mem_isDigit n c hc

theorem pyIntDigits_padZeros (w n : Nat) :
    pyIntDigits (padZeros w (natToDigits n)) = some n := by
  unfold pyIntDigits
  rw [if_pos, charsToNat_padZeros, charsToNat_natToDigits]
  rw [Bool.and_eq_true]
  refine ⟨?_, ?_⟩
  · cases hl : padZeros w (natToDigits n) with
    | nil => exact absurd hl (padZeros_ne_nil w _ (natToDigits_ne_nil n))
    | cons y ys => simp
  · rw [List.all_eq_true]
    intro c hc
    rcases padZeros_mem w _ c hc with h0 | hd
    · subst h0
      decide
    · exact natToDigits_mem_isDigit n c hd

theorem version_str_to_mm_mk (a b w : Nat) :
    version_str_to_mm
      (String.mk (natToDigits a ++ '.' :: padZeros w (natToDigits b))) = some [a, b] := by
  unfold version_str_to_mm
  show mapIntParse (splitOnChar '.' (natToDigits a ++ '.' :: padZeros w (natToDigits b)))
    = some [a, b]
  rw [splitOnChar_append '.' _ _ (natToDigits_not_dot a),
    splitOnChar_not_mem '.' _ (padZeros_not_dot w b)]
  simp [mapIntParse, pyIntDigits_natToDigits a, pyIntDigits_padZeros w b]

theorem version_roundtrip_value (a b : Nat) :
    version_str_to_mm (mm_to_version_str [a, b]) = some [a, b] := by
  show version_str_to_mm
    (if a = 1 then String.mk (natToDigits a ++ '.' :: padZeros 2 (natToDigits b))
     else String.mk (natToDigits a ++ '.' :: padZeros 3 (natToDigits b))) = some [a, b]
  by_cases ha : a = 1
  · rw [if_pos ha]
    exact version_str_to_mm_mk a b 2
  · rw [if_neg ha]
    exact version_str_to_mm_mk a b 3

theorem natToDigits_len1 (n : Nat) (h : n < 10) : (natToDigits n).length = 1 := by
  rw [natToDigits_lt n h]
  rfl

theorem natToDigits_len2 (n : Nat) (h : n < 100) : (natToDigits n).length ≤ 2 := by
  by_cases h1 : n < 10
  · rw [natToDigits_len1 n h1]
    omega
  · rw [natToDigits_ge n h1]
    have : n / 10 < 10 := by omega
    simp [natToDigits_len1 _ this]

theorem natToDigits_len3 (n : Nat) (h : n < 1000) : (natToDigits n).length ≤ 3 := by
  by_cases h1 : n < 10
  · rw [natToDigits_len1 n h1]
    omega
  · rw [natToDigits_ge n h1]
    have h2 : n / 10 < 100 := by omega
    have := natToDigits_len2 (n / 10) h2
    simp [List.length_append]
    omega

theorem version_text_accepted_mk (a b w : Nat) (hw2 : 2 ≤ w) (hw3 : w ≤ 3)
    (hlen : (natToDigits b).length ≤ 3) :
    version_text_accepted
      (String.mk (natToDigits a ++ '.' :: padZeros w (natToDigits b))) = true := by
  unfold version_text_accepted
  show (match splitOnChar '.' (natToDigits a ++ '.' :: padZeros w (natToDigits b)) with
    | [x, y] => !x.isEmpty && x.all Char.isDigit && y.all Char.isDigit &&
        (y.length = 2 || y.length = 3)
    | _ => false) = true
  rw [splitOnChar_append '.' _ _ (natToDigits_not_dot a),
    splitOnChar_not_mem '.' _ (padZeros_not_dot w b)]
  simp only [Bool.and_eq_true, Bool.or_eq_true, decide_eq_true_eq]
  refine ⟨⟨⟨?_, ?_⟩, ?_⟩, ?_⟩
  · cases hl : natToDigits a with
    | nil => exact absurd hl (natToDigits_ne_nil a)
    | cons y ys => simp
  · rw [List.all_eq_true]
    exact fun c hc => natToDigits_mem_isDigit a c hc
  · rw [List.all_eq_true]
    intro c hc
    rcases padZeros_mem w _ c hc with h0 | hd
    · subst h0
      decide
    · exact natToDigits_mem_isDigit b c hd
  · rw [padZeros_length]
    omega

theorem version_text_accepted_canonical (a b : Nat) (hb : b ≤ 999) :
    version_text_accepted (mm_to_version_str [a, b]) = true := by
  have hlen : (natToDigits b).length ≤ 3 := natToDigits_len3 b (by omega)
  show version_text_accepted
    (if a = 1 then String.mk (natToDigits a ++ '.' :: padZeros 2 (natToDigits b))
     else String.mk (natToDigits a ++ '.' :: padZeros 3 (natToDigits b))) = true
  by_cases ha : a = 1
  · rw [if_pos ha]
    exact version_text_accepted_mk a b 2 (by norm_num) (by norm_num) hlen
  · rw [if_neg ha]
    exact version_text_accepted_mk a b 3 (by norm_num) (by norm_num) hlen

/-- C5 (corrected: round-trip on canonical texts).  For every version value
`[a, b]` whose minor component fits the padding rule (`b ≤ 999`), the
rendered text `mm_to_version_str [a, b]` is accepted by the `major.minor`
grammar (`\d+\.\d{2,3}`), parsing it with `_version_str_to_mm` recovers
`[a, b]`, and hence formatting the parse gives back the text unchanged:
`format(parse(text)) == text` holds for every canonical text.  -/
theorem c5_roundtrip_canonical (a b : Nat) (hb : b ≤ 999) :
    version_str_to_mm (mm_to_version_str [a, b]) = some [a, b]
    ∧ (version_str_to_mm (mm_to_version_str [a, b])).map mm_to_version_str
        = some (mm_to_version_str [a, b])
    ∧ version_text_accepted (mm_to_version_str [a, b]) = true := by
  refine ⟨version_roundtrip_value a b, ?_, version_text_accepted_canonical a b hb⟩
  rw [version_roundtrip_value a b]
  rfl

/-- Witness for `c5_roundtrip_canonical` at the value `[2, 40]`
(text `"2.040"`). -/
theorem c5_roundtrip_canonical_witness :
    version_str_to_mm (mm_to_version_str [2, 40]) = some [2, 40]
    ∧ version_text_accepted (mm_to_version_str [2, 40]) = true := by
  have h := c5_roundtrip_canonical 2 40 (by decide)
  exact ⟨h.1, h.2.2⟩

/-- C5 counterexample: `"2.04"` is accepted by the `major.minor` grammar
(minor may have 2 or 3 digits) but is not canonical: it parses to `[2, 4]`,
which formats back to `"2.004"`, not `"2.04"`.  So
`format(parse(text)) == text` fails for some accepted text. -/
theorem c5_roundtrip_counterexample :
    version_text_accepted ("2.04") = true
    ∧ (version_str_to_mm ("2.04")).map mm_to_version_str = some ("2.004")
    ∧ ("2.004" : String) ≠ ("2.04" : String) := by decide

theorem listLt_irrefl (l : List Nat) : listLt l l = false := by
  induction l with
  | nil => rfl
  | cons x xs ihx => simp [listLt, ihx]

theorem listLt_bump (a b : Nat) : listLt [a, b + 1] [a, b] = false := by
  show (if a < a then true else if a < a then false else listLt [b + 1] [b]) = false
  rw [if_neg (lt_irrefl a), if_neg (lt_irrefl a)]
  show (if b + 1 < b then true else if b < b + 1 then false else listLt [] []) = false
  rw [if_neg (by omega : ¬ b + 1 < b), if_pos (by omega : b < b + 1)]

theorem versionStrLt_self (s : String) : versionStrLt s s = false := by
  unfold versionStrLt
  cases h : version_str_to_mm s with
  | none => rfl
  | some a => simp [listLt_irrefl]

theorem versionStrLt_eq (s t : String) (a b : List Nat)
    (hs : version_str_to_mm s = some a) (ht : version_str_to_mm t = some b) :
    versionStrLt s t = listLt a b := by
  unfold versionStrLt
  rw [hs, ht]

/-- C1: with no explicit requested version (`nversion` absent, or `"keep"`
with no released version), `get_new_version` bumps the released minor by 1
when a released version exists, raising (OverflowError) when that minor is
already 999; with no released version it derives from the current major:
2 gives the fixed `"2.040"`, below 2 gives `"2.000"`, above 2 raises
(ValidationError).  The hypotheses say the current version parses with head
`m0` and the released version parses as `[r0, r1]`, which the extraction
grammar `Version (\d+\.\d{2,3})` guarantees in the source. -/
theorem c1_reconcile_derive (version rv : String) (m0 r0 r1 : Nat) (mrest : List Nat)
    (hm : version_str_to_mm version = some (m0 :: mrest))
    (hr : version_str_to_mm rv = some [r0, r1]) :
    (get_new_version version (some rv) none =
      if r1 = 999 then Except.error (AutofixError.cannotBump rv)
      else Except.ok (mm_to_version_str [r0, r1 + 1]))
    ∧ (get_new_version version none none =
      if m0 = 2 then Except.ok ("2.040")
      else if m0 < 2 then Except.ok ("2.000")
      else Except.error (AutofixError.versionTooHigh version))
    ∧ get_new_version version none (some ("keep")) = get_new_version version none none := by
  refine ⟨?_, ?_, ?_⟩
  · by_cases h9 : r1 = 999 <;>
      simp [get_new_version, compute_new_version, hm, hr, h9]
  · simp only [get_new_version, compute_new_version, hm]
  · simp [get_new_version, compute_new_version, hm]

/-- Witness for `c1_reconcile_derive`: current `"1.23"`, released
`"2.001"` bumps to `"2.002"`; without a released version a 1.x font derives
`"2.000"`. -/
theorem c1_reconcile_derive_witness :
    get_new_version ("1.23") (some ("2.001")) none = Except.ok ("2.002")
    ∧ get_new_version ("1.23") none none = Except.ok ("2.000") := by
  have h := c1_reconcile_derive ("1.23") ("2.001") 1 2 1 [23] (by decide) (by decide)
  refine ⟨?_, ?_⟩
  · rw [h.1]
    decide
  · rw [h.2.1]
    decide

/-- C2: with an explicit requested version (`nv ≠ "keep"`), the request is
rejected (ValidationError) exactly when it is below the released version if
one exists, or below the current version if none exists; otherwise it is
returned unchanged.  In particular, when a released version exists the
current version is never consulted: `requested ≥ released` is accepted even
if `requested < current`. -/
theorem c2_reconcile_explicit (version nv rv : String) (mm n_mm r_mm : List Nat)
    (hk : nv ≠ "keep")
    (hm : version_str_to_mm version = some mm)
    (hn : version_str_to_mm nv = some n_mm)
    (hr : version_str_to_mm rv = some r_mm) :
    (get_new_version version (some rv) (some nv) =
      if listLt n_mm r_mm then Except.error (AutofixError.newBelowRelease nv rv)
      else Except.ok nv)
    ∧ (listLt n_mm r_mm = false → get_new_version version (some rv) (some nv) = Except.ok nv)
    ∧ (get_new_version version none (some nv) =
      if listLt n_mm mm then Except.error (AutofixError.newBelowCurrent nv version)
      else Except.ok nv) := by
  refine ⟨?_, ?_, ?_⟩
  · simp [get_new_version, hm, hn, hr, hk]
  · intro hlt
    simp [get_new_version, hm, hn, hr, hk, hlt]
  · simp [get_new_version, hm, hn, hk]

/-- Witness for `c2_reconcile_explicit`: requested `"1.099"` below released
`"2.001"` is rejected; requested `"2.010"` at/above released `"2.001"` is
accepted although it is below the current `"2.100"`. -/
theorem c2_reconcile_explicit_witness :
    get_new_version ("2.100") (some ("2.001")) (some ("1.099")) =
      Except.error (AutofixError.newBelowRelease ("1.099") ("2.001"))
    ∧ get_new_version ("2.100") (some ("2.001")) (some ("2.010")) = Except.ok ("2.010") := by
  have h1 := c2_reconcile_explicit ("2.100") ("1.099") ("2.001") [2, 100] [1, 99] [2, 1]
    (by decide) (by decide) (by decide) (by decide)
  have h2 := c2_reconcile_explicit ("2.100") ("2.010") ("2.001") [2, 100] [2, 10] [2, 1]
    (by decide) (by decide) (by decide) (by decide)
  refine ⟨?_, ?_⟩
  · rw [h1.1]
    decide
  · exact h2.2.1 (by decide)

/-- C3: the literal directive `"keep"` returns the released version
unchanged when one exists; with no released version the call is literally
the same computation as when no requested version is given.  (The current
version must parse, which the extraction grammar guarantees; the source
parses it before looking at the directive.) -/
theorem c3_reconcile_keep (version rv : String) (mm : List Nat)
    (hm : version_str_to_mm version = some mm) :
    get_new_version version (some rv) (some ("keep")) = Except.ok rv
    ∧ get_new_version version none (some ("keep")) = get_new_version version none none := by
  refine ⟨?_, ?_⟩
  · simp [get_new_version, hm]
  · simp [get_new_version, hm]

/-- Witness for `c3_reconcile_keep`: `"keep"` with released `"2.005"`
returns `"2.005"`; `"keep"` with no released version computes the same
result as an absent directive. -/
theorem c3_reconcile_keep_witness :
    get_new_version ("1.23") (some ("2.005")) (some ("keep")) = Except.ok ("2.005")
    ∧ get_new_version ("1.23") none (some ("keep")) = get_new_version ("1.23") none none := by
  exact c3_reconcile_keep ("1.23") ("2.005") [1, 23] (by decide)

/-- C4 counterexample: with current version `"2.100"`, no released version
and no requested version, `get_new_version` returns the fixed `"2.040"`,
which is strictly below the current version — so the returned version can
be below every version in sight without any explicit override. -/
theorem c4_monotonic_counterexample :
    get_new_version ("2.100") none none = Except.ok ("2.040")
    ∧ versionStrLt ("2.040") ("2.100") = true := by decide

/-- C4 (amended).  When a released version exists, a successful
`get_new_version` never returns a version below both the current and the
released version.  When no released version exists, the result is never
below the current version except in exactly one situation: the directive is
absent or `"keep"`, the current major is 2 with minor above 40, and the
returned value is the fixed `"2.040"`. -/
theorem c4_monotonic_amended (version rv result : String) (m0 m1 : Nat)
    (hm : version_str_to_mm version = some [m0, m1]) :
    (∀ nvOpt : Option String,
      get_new_version version (some rv) nvOpt = Except.ok result →
      versionStrLt result version = false ∨ versionStrLt result rv = false)
    ∧ (∀ nvOpt : Option String,
      get_new_version version none nvOpt = Except.ok result →
      versionStrLt result version = false
      ∨ ((nvOpt = none ∨ nvOpt = some ("keep")) ∧ m0 = 2 ∧ 40 < m1
          ∧ result = "2.040")) := by
  have hderive : ∀ nvIsKeep : Prop,
      compute_new_version [m0, m1] version none = Except.ok result →
      versionStrLt result version = false ∨ (m0 = 2 ∧ 40 < m1 ∧ result = "2.040") := by
    intro _ h
    simp only [compute_new_version] at h
    by_cases h2 : m0 = 2
    · rw [if_pos h2] at h
      have hres : result = "2.040" := by
        cases h
        rfl
      subst hres
      by_cases h40 : 40 < m1
      · exact Or.inr ⟨h2, h40, rfl⟩
      · left
        rw [versionStrLt_eq _ _ [2, 40] [m0, m1] (by decide) hm, h2]
        show (if 2 < 2 then true else if 2 < 2 then false else listLt [40] [m1]) = false
        rw [if_neg (lt_irrefl 2), if_neg (lt_irrefl 2)]
        show (if 40 < m1 then true else if m1 < 40 then false else listLt [] []) = false
        rw [if_neg h40]
        by_cases h41 : m1 < 40
        · rw [if_pos h41]
        · rw [if_neg h41]
          rfl
    · rw [if_neg h2] at h
      by_cases hlow : m0 < 2
      · rw [if_pos hlow] at h
        have hres : result = "2.000" := by
          cases h
          rfl
        subst hres
        left
        rw [versionStrLt_eq _ _ [2, 0] [m0, m1] (by decide) hm]
        show (if 2 < m0 then true else if m0 < 2 then false else listLt [0] [m1]) = false
        rw [if_neg (by omega : ¬ 2 < m0), if_pos hlow]
      · rw [if_neg hlow] at h
        exact absurd h (by simp)
  have hbump : compute_new_version [m0, m1] version (some rv) = Except.ok result →
      versionStrLt result rv = false := by
    intro h
    simp only [compute_new_version] at h
    cases hrv : version_str_to_mm rv with
    | none =>
      rw [hrv] at h
      exact absurd h (by simp)
    | some r_mm =>
      rw [hrv] at h
      rcases r_mm with _ | ⟨r0, _ | ⟨r1, rest⟩⟩
      · exact absurd h (by simp)
      · exact absurd h (by simp)
      · simp only [] at h
        by_cases h9 : r1 = 999
        · rw [if_pos h9] at h
          exact absurd h (by simp)
        · rw [if_neg h9] at h
          by_cases hrest : rest = []
          · rw [if_pos hrest] at h
            have hres : result = mm_to_version_str [r0, r1 + 1] := by
              cases h
              rfl
            subst hres
            subst hrest
            rw [versionStrLt_eq _ _ [r0, r1 + 1] [r0, r1]
              (version_roundtrip_value r0 (r1 + 1)) hrv]
            exact listLt_bump r0 r1
          · rw [if_neg hrest] at h
            exact absurd h (by simp)
  refine ⟨?_, ?_⟩
  · intro nvOpt h
    simp only [get_new_version, hm] at h
    cases nvOpt with
    | none => exact Or.inr (hbump h)
    | some nv =>
      simp only [] at h
      by_cases hk : nv = "keep"
      · rw [if_pos hk] at h
        have hres : result = rv := by
          cases h
          rfl
        rw [hres]
        exact Or.inr (versionStrLt_self rv)
      · rw [if_neg hk] at h
        cases hn : version_str_to_mm nv with
        | none =>
          rw [hn] at h
          exact absurd h (by simp)
        | some n_mm =>
          rw [hn] at h
          simp only [] at h
          cases hrv : version_str_to_mm rv with
          | none =>
            rw [hrv] at h
            exact absurd h (by simp)
          | some r_mm =>
            rw [hrv] at h
            simp only [] at h
            by_cases hlt : listLt n_mm r_mm
            · rw [if_pos hlt] at h
              exact absurd h (by simp)
            · rw [if_neg hlt] at h
              have hres : result = nv := by
                cases h
                rfl
              subst hres
              right
              rw [versionStrLt_eq _ _ n_mm r_mm hn hrv]
              exact Bool.of_not_eq_true hlt
  · intro nvOpt h
    simp only [get_new_version, hm] at h
    cases nvOpt with
    | none =>
      rcases hderive True h with h1 | h2
      · exact Or.inl h1
      · exact Or.inr ⟨Or.inl rfl, h2⟩
    | some nv =>
      simp only [] at h
      by_cases hk : nv = "keep"
      · rw [if_pos hk] at h
        rcases hderive True h with h1 | h2
        · exact Or.inl h1
        · exact Or.inr ⟨Or.inr (by rw [hk]), h2⟩
      · rw [if_neg hk] at h
        cases hn : version_str_to_mm nv with
        | none =>
          rw [hn] at h
          exact absurd h (by simp)
        | some n_mm =>
          rw [hn] at h
          simp only [] at h
          by_cases hlt : listLt n_mm [m0, m1]
          · rw [if_pos hlt] at h
            exact absurd h (by simp)
          · rw [if_neg hlt] at h
            have hres : result = nv := by
              cases h
              rfl
            subst hres
            left
            rw [versionStrLt_eq _ _ n_mm [m0, m1] hn hm]
            exact Bool.of_not_eq_true hlt

/-- Witness for `c4_monotonic_amended`: current `"2.000"`, released
`"2.001"`, no directive; the bumped result `"2.002"` is not below both. -/
theorem c4_monotonic_amended_witness :
    versionStrLt ("2.002") ("2.000") = false ∨ versionStrLt ("2.002") ("2.001") = false := by
  exact (c4_monotonic_amended ("2.000") ("2.001") ("2.002") 2 0 (by decide)).1 none (by decide)

/-- C6: `_check_version_info` accepts the documented example
`"GOOG;noto-fonts:20170220:a8a215d2e889"` exactly when the current date is
on or after 2017-02-20; it rejects the same string with year 2016 (before
the 2017 cutoff) regardless of the current date, rejects an embedded date
that does not exist on the calendar (month 13), and rejects the example
whenever the current date is strictly before the embedded date. -/
theorem c6_version_info (today : Nat × Nat × Nat) :
    (dateLtB today (2017, 2, 20) = false →
      _check_version_info ("GOOG;noto-fonts:20170220:a8a215d2e889") today = Except.ok ())
    ∧ _check_version_info ("GOOG;noto-fonts:20160220:a8a215d2e889") today =
        Except.error (AutofixError.versionInfoTooOld ("GOOG;noto-fonts:20160220:a8a215d2e889"))
    ∧ _check_version_info ("GOOG;noto-fonts:20171301:a8a215d2e889") today =
        Except.error
          (AutofixError.versionInfoInvalidDate 2017 13 1 ("GOOG;noto-fonts:20171301:a8a215d2e889"))
    ∧ (dateLtB today (2017, 2, 20) = true →
      _check_version_info ("GOOG;noto-fonts:20170220:a8a215d2e889") today =
        Except.error
          (AutofixError.versionInfoFutureDate ("GOOG;noto-fonts:20170220:a8a215d2e889"))) := by
  have hgood : matchVersionInfo ("GOOG;noto-fonts:20170220:a8a215d2e889") =
      some (2017, 2, 20) := by decide
  have h2016 : matchVersionInfo ("GOOG;noto-fonts:20160220:a8a215d2e889") =
      some (2016, 2, 20) := by decide
  have h13 : matchVersionInfo ("GOOG;noto-fonts:20171301:a8a215d2e889") =
      some (2017, 13, 1) := by decide
  have hvalid : isValidDate 2017 2 20 = true := by decide
  have hinvalid : isValidDate 2017 13 1 = false := by decide
  refine ⟨?_, ?_, ?_, ?_⟩
  · intro hlt
    simp only [_check_version_info, hgood]
    rw [if_pos (by norm_num), hvalid, if_pos rfl, hlt]
    simp
  · simp only [_check_version_info, h2016]
    rw [if_neg (by norm_num)]
  · simp only [_check_version_info, h13]
    rw [if_pos (by norm_num), hinvalid]
    simp
  · intro hlt
    simp only [_check_version_info, hgood]
    rw [if_pos (by norm_num), hvalid, if_pos rfl, hlt]
    simp

/-- Witness for `c6_version_info`: the example is accepted with the current
date 2018-01-01 and rejected as a future date with the current date
2017-01-01. -/
theorem c6_version_info_witness :
    _check_version_info ("GOOG;noto-fonts:20170220:a8a215d2e889") (2018, 1, 1) = Except.ok ()
    ∧ _check_version_info ("GOOG;noto-fonts:20170220:a8a215d2e889") (2017, 1, 1) =
        Except.error
          (AutofixError.versionInfoFutureDate ("GOOG;noto-fonts:20170220:a8a215d2e889")) := by
  exact ⟨(c6_version_info (2018, 1, 1)).1 (by decide),
    (c6_version_info (2017, 1, 1)).2.2.2 (by decide)⟩

theorem plan_ui_2048 (a d : Int) :
    plan_ui_metrics 2048 a d =
      (if a = 2163 then
        (if d = -555 then Except.ok []
         else if (d - (-555)).natAbs > 2 then Except.error (AutofixError.largeDiff ("descent"))
         else Except.ok
           [("hhea.descent", -555), ("OS/2.sTypoDescender", -555), ("OS/2.usWinDescent", 555)])
       else if (a - 2163).natAbs > 2 then Except.error (AutofixError.largeDiff ("ascent"))
       else
        (if d = -555 then Except.ok
           [("hhea.ascent", 2163), ("OS/2.sTypoAscender", 2163), ("OS/2.usWinAscent", 2163)]
         else if (d - (-555)).natAbs > 2 then Except.error (AutofixError.largeDiff ("descent"))
         else Except.ok
           [("hhea.ascent", 2163), ("OS/2.sTypoAscender", 2163), ("OS/2.usWinAscent", 2163),
            ("hhea.descent", -555), ("OS/2.sTypoDescender", -555),
            ("OS/2.usWinDescent", 555)])) := by
  have hexp : expected_ui_metrics 2048 = Except.ok (2163, -555) := by decide
  simp only [plan_ui_metrics, hexp, plan_descent]
  norm_num

/-- C7: on a UI-metrics font with em-size 2048, the ascent check fails with
a tolerance error exactly when `abs(ascent - 2163) > 2`; given the ascent
is within tolerance, the descent check fails exactly when
`abs(descent - (-555)) > 2`; planning succeeds exactly when both are within
tolerance, and then any differing field has its update to the expected
value in the plan.  Concretely, ascent 2162 yields the ascent updates with
no failure, while ascent 2160 fails with the tolerance error. -/
theorem c7_ui_tolerance (a d : Int) :
    (plan_ui_metrics 2048 a d = Except.error (AutofixError.largeDiff ("ascent"))
      ↔ (a - 2163).natAbs > 2)
    ∧ (plan_ui_metrics 2048 a d = Except.error (AutofixError.largeDiff ("descent"))
      ↔ (a - 2163).natAbs ≤ 2 ∧ (d - (-555)).natAbs > 2)
    ∧ ((∃ ps, plan_ui_metrics 2048 a d = Except.ok ps)
      ↔ (a - 2163).natAbs ≤ 2 ∧ (d - (-555)).natAbs ≤ 2)
    ∧ ((a - 2163).natAbs ≤ 2 → (d - (-555)).natAbs ≤ 2 → a ≠ 2163 →
        ∃ ps, plan_ui_metrics 2048 a d = Except.ok ps ∧ ("hhea.ascent", (2163 : Int)) ∈ ps)
    ∧ ((a - 2163).natAbs ≤ 2 → (d - (-555)).natAbs ≤ 2 → d ≠ -555 →
        ∃ ps, plan_ui_metrics 2048 a d = Except.ok ps ∧ ("hhea.descent", (-555 : Int)) ∈ ps)
    ∧ plan_ui_metrics 2048 2162 (-555) =
        Except.ok [("hhea.ascent", 2163), ("OS/2.sTypoAscender", 2163), ("OS/2.usWinAscent", 2163)]
    ∧ plan_ui_metrics 2048 2160 (-555) = Except.error (AutofixError.largeDiff ("ascent")) := by
  refine ⟨?_, ?_, ?_, ?_, ?_, by decide, by decide⟩ <;>
    rw [plan_ui_2048] <;> split_ifs <;> simp_all

/-- Witness for `c7_ui_tolerance`: ascent 2162, descent -554 (both within
tolerance, both differing) plans the ascent update to 2163. -/
theorem c7_ui_tolerance_witness :
    ∃ ps, plan_ui_metrics 2048 2162 (-554) = Except.ok ps
      ∧ ("hhea.ascent", (2163 : Int)) ∈ ps := by
  exact (c7_ui_tolerance 2162 (-554)).2.2.2.1 (by decide) (by decide) (by decide)

/-- C8: the expected UI vertical metrics depend only on the em-size:
2048 gives ascent 2163 / descent -555, 1000 gives 1069 / -293, and any
other em-size (such as 1234) makes planning fail with the
no-expected-metrics configuration error, whatever the observed metrics
are. -/
theorem c8_ui_config (upem a d : Int) (h2048 : upem ≠ 2048) (h1000 : upem ≠ 1000) :
    expected_ui_metrics 2048 = Except.ok (2163, -555)
    ∧ expected_ui_metrics 1000 = Except.ok (1069, -293)
    ∧ expected_ui_metrics upem = Except.error (AutofixError.noExpectedUiMetrics upem)
    ∧ plan_ui_metrics upem a d = Except.error (AutofixError.noExpectedUiMetrics upem)
    ∧ plan_ui_metrics 1234 a d = Except.error (AutofixError.noExpectedUiMetrics 1234) := by
  have he : expected_ui_metrics upem = Except.error (AutofixError.noExpectedUiMetrics upem) := by
    simp [expected_ui_metrics, h2048, h1000]
  have he2 : expected_ui_metrics 1234 = Except.error (AutofixError.noExpectedUiMetrics 1234) := by
    decide
  refine ⟨by decide, by decide, he, ?_, ?_⟩
  · simp [plan_ui_metrics, he]
  · simp [plan_ui_metrics, he2]

/-- Witness for `c8_ui_config` at em-size 1234. -/
theorem c8_ui_config_witness :
    expected_ui_metrics 1234 = Except.error (AutofixError.noExpectedUiMetrics 1234) := by
  exact (c8_ui_config 1234 0 0 (by decide) (by decide)).2.2.1

/-- C9 counterexample: in dry-run mode `fix_font` still calls
`ensure_dir_exists(path.join(dstdir, 'unhinted'))` unconditionally
(autofix_for_phase3.py:359 runs before the dry-run test at line 363), so a
missing output directory is created: starting from a filesystem holding
only the directory `"dest"`, a dry run ends with the new directory
`"dest/unhinted"` — the filesystem state is modified. -/
theorem c9_dry_run_counterexample :
    fix_font_io (Except.ok ()) ("A.ttf") ("dest") none true (FS.mk ["dest"] []) =
      Except.ok (FS.mk ["dest/unhinted", "dest"] [], [], [])
    ∧ FS.mk ["dest/unhinted", "dest"] ([] : List String) ≠ FS.mk ["dest"] [] := by decide

/-- C9 (amended): in dry-run mode, a successful `fix_font` writes no font
file, invokes no external process, and leaves the set of files unchanged;
the only filesystem modification is the possible creation of the
`unhinted` output directory (which the code performs even in a dry run). -/
theorem fix_font_io_dry_ok (u : Unit) (fname dstdir : String)
    (autohint : Option AutohintCode) (fs fs1 : FS) (p1 : String)
    (hens : ensure_dir_exists (pathJoin dstdir ("unhinted")) fs = Except.ok (fs1, p1)) :
    fix_font_io (Except.ok u) fname dstdir autohint true fs = Except.ok (fs1, [], []) := by
  unfold fix_font_io
  rw [hens]
  cases autohint with
  | none => rfl
  | some code => cases code <;> rfl

theorem fix_font_io_dry_err (u : Unit) (fname dstdir : String)
    (autohint : Option AutohintCode) (fs : FS) (e : AutofixError)
    (hens : ensure_dir_exists (pathJoin dstdir ("unhinted")) fs = Except.error e) :
    fix_font_io (Except.ok u) fname dstdir autohint true fs = Except.error e := by
  unfold fix_font_io
  rw [hens]

theorem c9_dry_run_amended (plan : Except AutofixError Unit) (fname dstdir : String)
    (autohint : Option AutohintCode) (fs fs2 : FS) (writes : List String)
    (procs : List (List String))
    (h : fix_font_io plan fname dstdir autohint true fs = Except.ok (fs2, writes, procs)) :
    writes = [] ∧ procs = []
    ∧ fs2.files = fs.files
    ∧ (fs2.dirs = fs.dirs ∨ fs2.dirs = pathJoin dstdir ("unhinted") :: fs.dirs) := by
  cases plan with
  | error e => exact absurd h (by simp [fix_font_io])
  | ok u =>
    rcases hens : ensure_dir_exists (pathJoin dstdir ("unhinted")) fs with e | ⟨fs1, p1⟩
    · rw [fix_font_io_dry_err u fname dstdir autohint fs e hens] at h
      exact absurd h (by simp)
    · rw [fix_font_io_dry_ok u fname dstdir autohint fs fs1 p1 hens] at h
      injection h with h2
      simp only [Prod.mk.injEq] at h2
      obtain ⟨hfs, hw, hp⟩ := h2
      subst hfs
      subst hw
      subst hp
      unfold ensure_dir_exists at hens
      split_ifs at hens with hc1 hc2
      · injection hens with h3
        simp only [Prod.mk.injEq] at h3
        rw [← h3.1]
        exact ⟨rfl, rfl, rfl, Or.inl rfl⟩
      · injection hens with h3
        simp only [Prod.mk.injEq] at h3
        rw [← h3.1]
        exact ⟨rfl, rfl, rfl, Or.inr rfl⟩

/-- Witness for `c9_dry_run_amended` on the concrete dry run of the
counterexample filesystem. -/
theorem c9_dry_run_amended_witness :
    ([] : List String) = [] ∧ ([] : List (List String)) = []
    ∧ (FS.mk ["dest/unhinted", "dest"] ([] : List String)).files = (FS.mk ["dest"] []).files
    ∧ ((FS.mk ["dest/unhinted", "dest"] ([] : List String)).dirs = (FS.mk ["dest"] []).dirs
        ∨ (FS.mk ["dest/unhinted", "dest"] ([] : List String)).dirs =
            pathJoin ("dest") ("unhinted") :: (FS.mk ["dest"] []).dirs) := by
  exact c9_dry_run_amended (Except.ok ()) ("A.ttf") ("dest") none (FS.mk ["dest"] [])
    (FS.mk ["dest/unhinted", "dest"] []) [] [] (by decide)

/-- C10: the batch entry point accepts as the version directive only the
absent value or a string matching `^(?:keep|[12]\.\d{3})$` (with Python's
`$` also matching before one final newline); any other directive — such as
the otherwise plausible `"1.05"` or `"3.000"` — makes `autofix_fonts` fail
with the version-regex exception before any font is processed: for every
choice of the per-font step `fixOne` and every font list, the result is
that same error. -/
theorem c10_version_gate (fixOne : String → FS → Except AutofixError FS)
    (hintedScripts : List String) (font_names : List String) (dstdir : String)
    (vi s : String) (computed_info : Option String) (today : Nat × Nat × Nat)
    (autohint : Option String) (fs fs1 : FS) (d1 : String)
    (h1 : ensure_dir_exists dstdir fs = Except.ok (fs1, d1))
    (hvi : _check_version_info vi today = Except.ok ())
    (hbad : _new_version_match s = false) :
    (autofix_fonts_model fixOne hintedScripts font_names dstdir none (some s)
      (some vi) computed_info today autohint fs =
      Except.error (AutofixError.versionRegexMismatch s))
    ∧ (∀ t : Option String, _check_version t = Except.ok () ↔
        (t = none ∨ ∃ u, t = some u ∧ _new_version_match u = true))
    ∧ _check_version (some ("1.05")) =
        Except.error (AutofixError.versionRegexMismatch ("1.05"))
    ∧ _check_version (some ("3.000")) =
        Except.error (AutofixError.versionRegexMismatch ("3.000"))
    ∧ _check_version (some ("keep")) = Except.ok ()
    ∧ _check_version (some ("2.001")) = Except.ok ()
    ∧ _check_version none = Except.ok () := by
  have hcv : _check_version (some s) = Except.error (AutofixError.versionRegexMismatch s) := by
    simp [_check_version, hbad]
  refine ⟨?_, ?_, by decide, by decide, by decide, by decide, by decide⟩
  · simp only [autofix_fonts_model, h1, hvi, hcv]
  · intro t
    cases t with
    | none => simp [_check_version]
    | some u =>
      by_cases hu : _new_version_match u <;> simp [_check_version, hu]

/-- Witness for `c10_version_gate`: with a valid version-info string and
the rejected directive `"1.05"`, the batch fails up front with the
version-regex error. -/
theorem c10_version_gate_witness :
    autofix_fonts_model (fun _ fsx => Except.ok fsx) [] [] ("d") none (some ("1.05"))
      (some ("GOOG;noto-fonts:20170220:a8a215d2e889")) none (2018, 1, 1) none (FS.mk [] []) =
      Except.error (AutofixError.versionRegexMismatch ("1.05")) := by
  exact (c10_version_gate (fun _ fsx => Except.ok fsx) [] [] ("d")
    ("GOOG;noto-fonts:20170220:a8a215d2e889") ("1.05") none (2018, 1, 1) none
    (FS.mk [] []) (FS.mk ["d"] []) ("d") (by decide) (by decide) (by decide)).1
